import Mathlib

/-!
Verification of `CloudParallax/tikker`, file `src-tauri/src/lib.rs`.

The repository consists of one Rust source file with two items:

* `greet(name: &str) -> String`, a `tauri::command` returning
  `format!("Hello, {}! You've been greeted from Rust!", name)`;
* `run()`, the application bootstrap: it builds a `tauri::Builder` with two
  plugins, registers `greet` as the single invokable command, installs a
  `setup` callback (on macOS it calls `tray::init_macos_menu_extra` and then
  sets the activation policy to `Accessory`; on other platforms it does
  nothing), calls `.run(...)`, and `.expect`s the result with the message
  `"error while running tauri application"`.

The `tray` module (`src-tauri/src/tray.rs`) is declared but its source is not
provided; its only relevant behaviour at the call site is that it returns a
`Result` whose error is propagated by `?`.  It is therefore abstracted by its
result.  The Tauri framework itself is external; its sequencing (builder
configuration, then `run`, which invokes the `setup` callback before entering
the event loop, and panics via `expect` on error) is modelled explicitly.
-/

namespace Tikker

/-- A piece of a Rust `format!` template: either a literal chunk or the
`{}` placeholder for the (single) argument. -/
inductive FmtPiece where
  | lit (s : String)
  | arg
deriving DecidableEq, Repr

/-- Render a parsed one-argument `format!` template against its argument. -/
def runFormat (tpl : List FmtPiece) (a : String) : String :=
  match tpl with
  | [] => ""
  | .lit s :: rest => s ++ runFormat rest a
  | .arg :: rest => a ++ runFormat rest a

/-- The template of the `format!` call in `greet`:
`"Hello, {}! You've been greeted from Rust!"` parsed into pieces. -/
def greetTemplate : List FmtPiece :=
  [.lit "Hello, ", .arg, .lit "! You've been greeted from Rust!"]

/-- Rust function `fn greet(name: &str) -> String` from `src-tauri/src/lib.rs`:
`format!("Hello, {}! You've been greeted from Rust!", name)`. -/
def greet (name : String) : String :=
  runFormat greetTemplate name

/-- Substring containment: `needle` occurs contiguously inside `hay`
(phrased on the underlying character lists). -/
def containsStr (hay needle : String) : Prop :=
  needle.data <:+: hay.data

instance (hay needle : String) : Decidable (containsStr hay needle) :=
  inferInstanceAs (Decidable (needle.data <:+: hay.data))

/-- Closed form of `greet`. -/
theorem greet_eq (name : String) :
    greet name = "Hello, " ++ name ++ "! You've been greeted from Rust!" := by
  show "Hello, " ++ (name ++ ("! You've been greeted from Rust!" ++ "")) = _
  rw [String.append_empty, String.append_assoc]

/-- The command dispatcher registered by
`.invoke_handler(tauri::generate_handler![greet])`: the only command callable
from the UI layer is `"greet"`, whose handler takes a string argument and
returns a string. -/
def invokeHandler (cmd : String) (arg : String) : Option String :=
  if cmd = "greet" then some (greet arg) else none

/-- Invocation of the `greet` command relative to an ambient state of type
`σ`.  The Rust command reads only its `&str` argument — no other state — so
its invocation is the pure call, with the ambient state passed through
unchanged. -/
def invokeGreet {σ : Type} (st : σ) (name : String) : String × σ :=
  (greet name, st)

/-- The `tauri::ActivationPolicy` values relevant to the source: `Regular`
(dock icon shown, the macOS default) and `Accessory` (dock icon hidden). -/
inductive ActivationPolicy where
  | regular
  | accessory
deriving DecidableEq, Repr

/-- The platforms distinguished by `#[cfg(target_os = "macos")]`. -/
inductive Platform where
  | macos
  | other
deriving DecidableEq, Repr

/-- The observable application state touched by the `setup` callback: the
process's dock-visibility (activation) policy.  On macOS its default before
`set_activation_policy` is called is `Regular` (dock icon visible). -/
structure AppState where
  activationPolicy : ActivationPolicy
deriving DecidableEq, Repr

/-- The app state at the start of `setup`. -/
def initialAppState : AppState := ⟨.regular⟩

/-- Observable bootstrap events of `run()`, in the order they occur. -/
inductive Event where
  | registerPlugin (name : String)
  | registerCommand (name : String)
  | trayInit
  | setActivationPolicy (p : ActivationPolicy)
  | enterRunLoop
deriving DecidableEq, Repr

/-- The `setup` closure of `run()`:
on macOS it calls `tray::init_macos_menu_extra(app.handle())?` and then
`app.set_activation_policy(tauri::ActivationPolicy::Accessory)`; on every
other platform its body is empty and it returns `Ok(())`.

`trayResult` abstracts the return value of `tray::init_macos_menu_extra`,
whose implementation (`src-tauri/src/tray.rs`) is not part of the provided
sources; at the call site only its `Result` matters, propagated by `?`.
Returns the setup outcome, the app state after the callback, and the events
the callback performed. -/
def setup (platform : Platform) (trayResult : Except String Unit)
    (st : AppState) : Except String Unit × AppState × List Event :=
  match platform with
  | .macos =>
    match trayResult with
    | .error e => (.error e, st, [.trayInit])
    | .ok () =>
      (.ok (), { st with activationPolicy := .accessory },
       [.trayInit, .setActivationPolicy .accessory])
  | .other => (.ok (), st, [])

/-- How `run()` ends: either the `.expect` fires (panic with a fatal
message) or the framework's event loop is entered with the given app
state, blocking the main thread. -/
inductive RunResult where
  | fatal (msg : String)
  | runLoopEntered (st : AppState)
deriving DecidableEq, Repr

/-- The panic message of the final `.expect` in `run()`. -/
def expectMsg : String := "error while running tauri application"

/-- The configuration steps of `run()`, in source order: the builder is
given the plugins `tauri_plugin_opener` and `tauri_plugin_positioner` and
registers the single command `greet` via
`.invoke_handler(tauri::generate_handler![greet])`. -/
def builderEvents : List Event :=
  [.registerPlugin "tauri_plugin_opener",
   .registerPlugin "tauri_plugin_positioner",
   .registerCommand "greet"]

/-- The trace of `run()` together with its outcome.

`run()` performs the configuration steps of `builderEvents`, then calls
`.run(tauri::generate_context!())`.  Per the framework's contract, `run`
first builds the app (`buildResult` abstracts a framework build failure),
then invokes the `setup` callback — whose error propagates as a startup
error — and only if setup succeeded enters the event loop.  A returned
error is turned into a panic by
`.expect("error while running tauri application")`. -/
def run (platform : Platform) (trayResult : Except String Unit)
    (buildResult : Except String Unit) : List Event × RunResult :=
  match buildResult with
  | .error _ => (builderEvents, .fatal expectMsg)
  | .ok () =>
    match setup platform trayResult initialAppState with
    | (.error _, _, evs) => (builderEvents ++ evs, .fatal expectMsg)
    | (.ok (), st, evs) =>
      (builderEvents ++ evs ++ [.enterRunLoop], .runLoopEntered st)

/-- If the framework build fails, the trace holds only the configuration
steps. -/
theorem run_trace_build_error (p : Platform) (tr : Except String Unit)
    (e : String) : (run p tr (.error e)).1 = builderEvents := rfl

/-- Trace of a macOS startup whose tray initialization fails. -/
theorem run_trace_macos_tray_error (e : String) :
    (run .macos (.error e) (.ok ())).1 = builderEvents ++ [.trayInit] := rfl

/-- Trace of a successful macOS startup. -/
theorem run_trace_macos_ok :
    (run .macos (.ok ()) (.ok ())).1 =
      builderEvents ++ [.trayInit, .setActivationPolicy .accessory] ++
        [.enterRunLoop] := rfl

/-- Trace of a non-macOS startup whose build succeeds, for any tray
result. -/
theorem run_trace_other_ok (tr : Except String Unit) :
    (run .other tr (.ok ())).1 = builderEvents ++ [] ++ [.enterRunLoop] := rfl

/-- If the framework build fails, `run` ends on the fatal path. -/
theorem run_result_build_error (p : Platform) (tr : Except String Unit)
    (e : String) : (run p tr (.error e)).2 = .fatal expectMsg := rfl

/-- A macOS startup whose tray initialization fails ends on the fatal
path. -/
theorem run_result_macos_tray_error (e : String) :
    (run .macos (.error e) (.ok ())).2 = .fatal expectMsg := rfl

/-- A successful macOS startup enters the run loop with the dock icon
hidden. -/
theorem run_result_macos_ok :
    (run .macos (.ok ()) (.ok ())).2 = .runLoopEntered ⟨.accessory⟩ := rfl

/-- A non-macOS startup whose build succeeds enters the run loop with the
app state untouched, for any tray result. -/
theorem run_result_other_ok (tr : Except String Unit) :
    (run .other tr (.ok ())).2 = .runLoopEntered initialAppState := rfl

/-- C1: for every input string `s`, `greet s` contains `s` as a substring and
also contains the fixed greeting template — the literal pieces
`"Hello, "` and `"! You've been greeted from Rust!"` — which does not depend
on `s`. -/
theorem greet_contains_name_and_template (s : String) :
    containsStr (greet s) s ∧
    containsStr (greet s) "Hello, " ∧
    containsStr (greet s) "! You've been greeted from Rust!" := by
  unfold containsStr
  refine ⟨⟨"Hello, ".data, "! You've been greeted from Rust!".data, ?_⟩,
         ⟨[], (s ++ "! You've been greeted from Rust!").data, ?_⟩,
         ⟨("Hello, " ++ s).data, [], ?_⟩⟩ <;>
    simp [greet_eq, String.data_append, List.append_assoc]

/-- C2: for every input string `name`, `greet name` is exactly
`"Hello, " ++ name ++ "! You've been greeted from Rust!"`; in particular
`greet ""` is `"Hello, ! You've been greeted from Rust!"`. -/
theorem greet_exact_output (name : String) :
    greet name = "Hello, " ++ name ++ "! You've been greeted from Rust!" ∧
    greet "" = "Hello, ! You've been greeted from Rust!" :=
  ⟨greet_eq name, by rw [greet_eq]; rfl⟩

/-- C3: `greet` is deterministic and side-effect free: two invocations with
equal input strings return equal strings, the result does not depend on any
ambient state, and the ambient state is left unchanged. -/
theorem greet_deterministic_stateless {σ : Type} (st st' : σ)
    (s1 s2 : String) (h : s1 = s2) :
    (invokeGreet st s1).1 = (invokeGreet st' s2).1 ∧
    (invokeGreet st s1).2 = st :=
  ⟨by rw [h]; rfl, rfl⟩


/-- Witness for C3 at concrete inputs: two invocations of `greet "tikker"`
against distinct ambient states agree and leave the state unchanged. -/
theorem greet_deterministic_stateless_witness :
    (invokeGreet (0 : Nat) "tikker").1 = (invokeGreet (1 : Nat) "tikker").1 ∧
    (invokeGreet (0 : Nat) "tikker").2 = 0 :=
  greet_deterministic_stateless 0 1 "tikker" "tikker" rfl

/-- C10: `greet` is injective — equal greetings come only from equal
names. -/
theorem greet_injective (s1 s2 : String) (h : greet s1 = greet s2) :
    s1 = s2 := by
  rw [greet_eq s1, greet_eq s2] at h
  have hd := congrArg String.data h
  simp only [String.data_append] at hd
  exact String.ext (List.append_cancel_left (List.append_cancel_right hd))

/-- Witness for C10 at a concrete input. -/
theorem greet_injective_witness : "Ada" = "Ada" :=
  greet_injective "Ada" "Ada" rfl

/-- C4: on macOS, if the tray-initialization routine invoked during setup
returns an error, that error propagates out of `setup` as a startup error,
and `run` takes the fatal startup-failure path. -/
theorem macos_tray_error_fatal (e : String) :
    (setup .macos (.error e) initialAppState).1 = .error e ∧
    (run .macos (.error e) (.ok ())).2 = .fatal expectMsg :=
  ⟨rfl, rfl⟩

/-- C5: on macOS, whenever `run` enters the framework's run loop, the trace
shows the tray-initialization call strictly before the run-loop entry, and
the setting of the activation policy to `Accessory` strictly before the
run-loop entry. -/
theorem macos_tray_and_policy_before_run_loop (tr b : Except String Unit)
    (h : Event.enterRunLoop ∈ (run .macos tr b).1) :
    List.Sublist [Event.trayInit, Event.enterRunLoop] (run .macos tr b).1 ∧
    List.Sublist [Event.setActivationPolicy .accessory, Event.enterRunLoop]
      (run .macos tr b).1 := by
  cases b with
  | error e =>
    rw [run_trace_build_error] at h
    exact absurd h (by decide)
  | ok u =>
    cases u
    cases tr with
    | error e =>
      rw [run_trace_macos_tray_error] at h
      exact absurd h (by decide)
    | ok v => cases v; exact ⟨by decide, by decide⟩

/-- Witness for C5 at concrete inputs: the successful macOS startup trace. -/
theorem macos_tray_and_policy_before_run_loop_witness :
    List.Sublist [Event.trayInit, Event.enterRunLoop]
      (run .macos (.ok ()) (.ok ())).1 ∧
    List.Sublist [Event.setActivationPolicy .accessory, Event.enterRunLoop]
      (run .macos (.ok ()) (.ok ())).1 :=
  macos_tray_and_policy_before_run_loop (.ok ()) (.ok ()) (by decide)

/-- C6: on every non-macOS platform, `setup` succeeds and changes nothing,
no tray-related event and no activation-policy change ever appears in the
startup trace, and a successful startup enters the run loop with the app
state untouched. -/
theorem non_macos_no_tray_no_policy_change (tr b : Except String Unit)
    (st : AppState) :
    setup .other tr st = (.ok (), st, []) ∧
    Event.trayInit ∉ (run .other tr b).1 ∧
    (∀ p, Event.setActivationPolicy p ∉ (run .other tr b).1) ∧
    (run .other tr (.ok ())).2 = .runLoopEntered initialAppState := by
  refine ⟨rfl, ?_, ?_, rfl⟩
  · cases b with
    | error e => rw [run_trace_build_error]; decide
    | ok u => cases u; rw [run_trace_other_ok]; decide
  · intro p
    cases b with
    | error e => rw [run_trace_build_error]; cases p <;> decide
    | ok u => cases u; rw [run_trace_other_ok]; cases p <;> decide

/-- Witness for C6 at concrete inputs: no tray call in a successful
non-macOS startup. -/
theorem non_macos_no_tray_witness :
    Event.trayInit ∉ (run .other (.ok ()) (.ok ())).1 :=
  (non_macos_no_tray_no_policy_change (.ok ()) (.ok ()) initialAppState).2.1

/-- C7: if the framework fails to build or run, `run` ends with the fatal
`.expect` message; on any fatal ending the run loop was never entered (no
recovery), and no trace ever enters the run loop more than once (no
retry). -/
theorem run_failure_fatal_no_retry (p : Platform) (tr b : Except String Unit)
    (e : String) :
    (run p tr (.error e)).2 = .fatal expectMsg ∧
    (∀ msg, (run p tr b).2 = .fatal msg →
      msg = expectMsg ∧ Event.enterRunLoop ∉ (run p tr b).1) ∧
    List.count Event.enterRunLoop (run p tr b).1 ≤ 1 := by
  refine ⟨run_result_build_error p tr e, ?_, ?_⟩
  · intro msg hm
    cases b with
    | error e' =>
      rw [run_result_build_error] at hm
      injection hm with h1
      subst h1
      exact ⟨rfl, by rw [run_trace_build_error]; decide⟩
    | ok u =>
      cases u
      cases p with
      | macos =>
        cases tr with
        | error e' =>
          rw [run_result_macos_tray_error] at hm
          injection hm with h1
          subst h1
          exact ⟨rfl, by rw [run_trace_macos_tray_error]; decide⟩
        | ok v =>
          cases v
          rw [run_result_macos_ok] at hm
          exact RunResult.noConfusion hm
      | other =>
        rw [run_result_other_ok] at hm
        exact RunResult.noConfusion hm
  · cases b with
    | error e' => rw [run_trace_build_error]; decide
    | ok u =>
      cases u
      cases p with
      | macos =>
        cases tr with
        | error e' => rw [run_trace_macos_tray_error]; decide
        | ok v => cases v; rw [run_trace_macos_ok]; decide
      | other => rw [run_trace_other_ok]; decide

/-- Witness for C7 at concrete inputs: a macOS startup with a failed build
is fatal with the `.expect` message and never enters the run loop. -/
theorem run_failure_fatal_no_retry_witness :
    "error while running tauri application" = expectMsg ∧
    Event.enterRunLoop ∉ (run .macos (.ok ()) (.error "boom")).1 :=
  (run_failure_fatal_no_retry .macos (.ok ()) (.error "boom") "boom").2.1
    "error while running tauri application" rfl

/-- C8: `run` performs the bootstrap steps in order: the trace starts with
exactly the builder configuration — two plugins, then the registration of
the single command `greet` — the trace holds exactly two plugin
registrations and exactly one command registration (of `greet`), the
registered handler maps `greet` (and only `greet`) from a string argument
to the string `greet arg`, and the run-loop entry, when it happens, is the
last step. -/
theorem run_bootstrap_order (p : Platform) (tr b : Except String Unit) :
    (run p tr b).1.take 3 = builderEvents ∧
    ((run p tr b).1.countP fun ev =>
      match ev with | .registerPlugin _ => true | _ => false) = 2 ∧
    ((run p tr b).1.filter fun ev =>
      match ev with | .registerCommand _ => true | _ => false) =
      [.registerCommand "greet"] ∧
    (∀ arg, invokeHandler "greet" arg = some (greet arg)) ∧
    (∀ cmd arg, (invokeHandler cmd arg).isSome = true → cmd = "greet") ∧
    (Event.enterRunLoop ∈ (run p tr b).1 →
      (run p tr b).1.getLast? = some Event.enterRunLoop) := by
  have hc : (run p tr b).1 = builderEvents ∨
      (run p tr b).1 = builderEvents ++ [.trayInit] ∨
      (run p tr b).1 =
        builderEvents ++ [.trayInit, .setActivationPolicy .accessory] ++
          [.enterRunLoop] ∨
      (run p tr b).1 = builderEvents ++ [] ++ [.enterRunLoop] := by
    cases b with
    | error e => exact .inl (run_trace_build_error p tr e)
    | ok u =>
      cases u
      cases p with
      | macos =>
        cases tr with
        | error e => exact .inr (.inl (run_trace_macos_tray_error e))
        | ok v => cases v; exact .inr (.inr (.inl run_trace_macos_ok))
      | other => exact .inr (.inr (.inr (run_trace_other_ok tr)))
  refine ⟨?_, ?_, ?_, fun arg => rfl, ?_, ?_⟩
  · rcases hc with h | h | h | h <;> rw [h] <;> decide
  · rcases hc with h | h | h | h <;> rw [h] <;> decide
  · rcases hc with h | h | h | h <;> rw [h] <;> decide
  · intro cmd arg hs
    by_cases hcmd : cmd = "greet"
    · exact hcmd
    · simp [invokeHandler, hcmd] at hs
  · intro hmem
    rcases hc with h | h | h | h
    · rw [h] at hmem; exact absurd hmem (by decide)
    · rw [h] at hmem; exact absurd hmem (by decide)
    · rw [h]; decide
    · rw [h]; decide

/-- Witness for C8 at concrete inputs: in a successful non-macOS startup
the run-loop entry is the last step of the trace. -/
theorem run_bootstrap_order_witness :
    (run .other (.ok ()) (.ok ())).1.getLast? = some Event.enterRunLoop :=
  (run_bootstrap_order .other (.ok ()) (.ok ())).2.2.2.2.2 (by decide)

/-- C9: on macOS, if tray initialization fails, `setup` returns the error
with the app state — in particular the dock-visibility policy — unchanged,
and no activation-policy change appears anywhere in the startup trace. -/
theorem macos_tray_error_leaves_policy_unchanged (e : String)
    (st : AppState) :
    setup .macos (.error e) st = (.error e, st, [.trayInit]) ∧
    (∀ p, Event.setActivationPolicy p ∉
      (run .macos (.error e) (.ok ())).1) := by
  refine ⟨rfl, ?_⟩
  intro p
  rw [run_trace_macos_tray_error]
  cases p <;> decide

/-- Witness for C9 at concrete inputs: a failed tray initialization never
sets the `Accessory` policy. -/
theorem macos_tray_error_leaves_policy_unchanged_witness :
    Event.setActivationPolicy .accessory ∉
      (run .macos (.error "boom") (.ok ())).1 :=
  (macos_tray_error_leaves_policy_unchanged "boom" initialAppState).2
    .accessory

end Tikker
